import Mathlib

/-!
Shallow embedding of the Mac–Android file transfer application
(services/adb_service.py, services/file_service.py, api/files.py,
api/devices.py, main.py) and proofs about its specification.

External effects (the adb transport, the local OS filesystem calls) are
modelled as explicit environment records of pure functions; each embedded
operation returns its result together with the list of side-effect events
it would perform, in order.
-/

namespace AFT

/-! ### Python string primitives, modelled over `List Char` -/

/-- ASCII whitespace as recognised by Python `str.split()` / `str.strip()`
(space, tab, newline, carriage return, vertical tab, form feed). -/
def wsChar (c : Char) : Bool :=
  c = ' ' || c = '\t' || c = '\n' || c = '\r' || c = '\x0b' || c = '\x0c'

/-- Helper for `pyTokens`: accumulates the current (reversed) token. -/
def tokensAux : List Char → List Char → List String
  | [], cur => if cur.isEmpty then [] else [String.mk cur.reverse]
  | c :: cs, cur =>
    if wsChar c then
      if cur.isEmpty then tokensAux cs []
      else String.mk cur.reverse :: tokensAux cs []
    else tokensAux cs (c :: cur)

/-- Python `s.split()` with no argument: split on runs of whitespace,
dropping empty tokens. -/
def pyTokens (s : String) : List String := tokensAux s.data []

/-- Helper for `pySplitLines`. -/
def splitNlAux : List Char → List Char → List String
  | [], cur => [String.mk cur.reverse]
  | c :: cs, cur =>
    if c = '\n' then String.mk cur.reverse :: splitNlAux cs []
    else splitNlAux cs (c :: cur)

/-- Python `s.split(chr(10))`: split at every newline, keeping empty parts. -/
def pySplitLines (s : String) : List String := splitNlAux s.data []

/-- Drop leading whitespace characters. -/
def dropWSLeft : List Char → List Char
  | [] => []
  | c :: cs => if wsChar c then dropWSLeft cs else c :: cs

/-- Python `s.strip()`: remove whitespace from both ends. -/
def pyStrip (s : String) : String :=
  String.mk ((dropWSLeft (dropWSLeft s.data).reverse).reverse)

/-- Does the character list start with the given pattern? -/
def chStarts : List Char → List Char → Bool
  | _, [] => true
  | [], _ :: _ => false
  | c :: cs, p :: ps => c = p && chStarts cs ps

/-- Python `s.startswith(pat)`. -/
def pyStartsWith (s pat : String) : Bool := chStarts s.data pat.data

/-- Python `needle in hay` for the list-of-characters view. -/
def chContains (ns : List Char) : List Char → Bool
  | [] => ns.isEmpty
  | c :: cs => chStarts (c :: cs) ns || chContains ns cs

/-- Python substring test `needle in hay`. -/
def pyContains (hay needle : String) : Bool := chContains needle.data hay.data

/-- Python `s.isdigit()` restricted to the ASCII digits that occur in
`ls -la` output: nonempty and all characters in the range 0–9. -/
def pyIsDigit (s : String) : Bool :=
  !s.data.isEmpty && s.data.all (fun c => '0' ≤ c && c ≤ '9')

/-- Python `int(s)` on a string of ASCII decimal digits. -/
def strToNat (s : String) : Nat :=
  s.data.foldl (fun n c => n * 10 + (c.toNat - 48)) 0

/-- Python `sep.join(parts)` with a single-space separator. -/
def joinSpace : List String → String
  | [] => ""
  | [x] => x
  | x :: y :: xs => x ++ " " ++ joinSpace (y :: xs)

/-- Index of the last slash in a character list, if any. -/
def lastSlashAux : List Char → Nat → Option Nat → Option Nat
  | [], _, acc => acc
  | c :: cs, i, acc => lastSlashAux cs (i + 1) (if c = '/' then some i else acc)

/-- Python `posixpath.dirname(p)`: everything up to the last slash, with
trailing slashes stripped unless the head is all slashes. -/
def osDirname (p : String) : String :=
  match lastSlashAux p.data 0 none with
  | none => ""
  | some i =>
    let head := p.data.take (i + 1)
    if head.all (· = '/') then String.mk head
    else String.mk (head.reverse.dropWhile (· = '/')).reverse

/-- Python `posixpath.basename(p)`: everything after the last slash. -/
def osBasename (p : String) : String :=
  match lastSlashAux p.data 0 none with
  | none => p
  | some i => String.mk (p.data.drop (i + 1))

/-- Does the string end with a slash? -/
def endsWithSlash (s : String) : Bool :=
  match s.data.getLast? with
  | some c => c = '/'
  | none => false

/-- Python `posixpath.join(a, b)` for the two-argument form used in the code. -/
def osPathJoin (a b : String) : String :=
  if pyStartsWith b "/" then b
  else if a = "" ∨ endsWithSlash a = true then a ++ b
  else a ++ "/" ++ b

/-! ### The listing sort order

Both listing functions end with
`sorted(files, key=lambda x: (not x['is_directory'], x['name'].lower()))`:
a stable sort on the pair (not-directory flag, lowercased name) compared
lexicographically, i.e. directories first, then case-insensitive name order.
-/

/-- Python `s.lower()` for the ASCII names compared by the sort key. -/
def lowerKey (s : String) : List Char := s.data.map Char.toLower

/-- Lexicographic `≤` on character lists by code point, as Python compares
strings. -/
def chLexLE : List Char → List Char → Bool
  | [], _ => true
  | _ :: _, [] => false
  | a :: as, b :: bs =>
    if a.toNat < b.toNat then true
    else if b.toNat < a.toNat then false
    else chLexLE as bs

/-- The Python sort key comparison: tuples `(not is_directory, name.lower())`
ordered lexicographically. -/
def nameLE (d1 : Bool) (n1 : String) (d2 : Bool) (n2 : String) : Bool :=
  if d1 = d2 then chLexLE (lowerKey n1) (lowerKey n2) else d1

/-! ### RemoteShellLister: ADBService.list_files (adb_service.py lines 69–120) -/

/-- A remote listing entry, the dict built in `ADBService.list_files`. -/
structure RFile where
  name : String
  path : String
  is_directory : Bool
  size : Nat
  permissions : String
  type : String
deriving DecidableEq, Repr

/-- Sort comparison used on remote entries. -/
def pyLeR (x y : RFile) : Bool := nameLE x.is_directory x.name y.is_directory y.name

/-- The remote sort comparison as a proposition. -/
abbrev pyLeRP (x y : RFile) : Prop := pyLeR x y = true

instance : DecidableRel pyLeRP := fun x y => inferInstanceAs (Decidable (pyLeR x y = true))

/-- One iteration of the parsing loop in `ADBService.list_files`: skip empty
and `total` lines, require at least 8 whitespace tokens, take the size from
token index 4 when it is numeric (else 0), rebuild the name from token
index 7 onward, and skip the `.` and `..` entries. -/
def parseLsLine (path line : String) : Option RFile :=
  if line = "" ∨ pyStartsWith line "total" = true then none
  else
    let parts := pyTokens line
    if parts.length < 8 then none
    else
      let permissions := parts.getD 0 ""
      let size := if pyIsDigit (parts.getD 4 "") then parts.getD 4 "" else "0"
      let name := joinSpace (parts.drop 7)
      if name = "." ∨ name = ".." then none
      else
        let is_directory := pyStartsWith permissions "d"
        some { name := name
               path := osPathJoin path name
               is_directory := is_directory
               size := if is_directory then 0 else strToNat size
               permissions := permissions
               type := if is_directory then "directory" else "file" }

/-- `ADBService.list_files` as a function of the raw `ls -la` shell output:
strip the output, split into lines, parse each line, and sort with
directories first and case-insensitive name order.  Python `sorted` is the
stable sort by the key `(not is_directory, name.lower())`; `insertionSort`
on the corresponding non-strict total preorder is that stable sort. -/
def adbListFiles (path output : String) : List RFile :=
  List.insertionSort pyLeRP ((pySplitLines (pyStrip output)).filterMap (parseLsLine path))

/-! ### Order lemmas for the listing sort -/

theorem chLexLE_trans : ∀ a b c : List Char,
    chLexLE a b = true → chLexLE b c = true → chLexLE a c = true
  | [], _, _ => by intro _ _; rfl
  | _ :: _, [], _ => by intro h _; simp [chLexLE] at h
  | _ :: _, _ :: _, [] => by intro _ h; simp [chLexLE] at h
  | a :: as, b :: bs, c :: cs => by
    intro h1 h2
    simp only [chLexLE] at h1 h2 ⊢
    split_ifs at h1 h2 ⊢ <;> first
      | rfl
      | omega
      | exact chLexLE_trans as bs cs h1 h2
      | simp_all

theorem chLexLE_total : ∀ a b : List Char, chLexLE a b = true ∨ chLexLE b a = true
  | [], _ => Or.inl rfl
  | _ :: _, [] => Or.inr rfl
  | a :: as, b :: bs => by
    simp only [chLexLE]
    rcases Nat.lt_trichotomy a.toNat b.toNat with h | h | h
    · left; simp [h]
    · have := chLexLE_total as bs
      simp only [h, Nat.lt_irrefl, if_false, if_true]
      simpa using this
    · right; simp [h]

theorem nameLE_trans (d1 : Bool) (n1 : String) (d2 : Bool) (n2 : String)
    (d3 : Bool) (n3 : String) :
    nameLE d1 n1 d2 n2 = true → nameLE d2 n2 d3 n3 = true → nameLE d1 n1 d3 n3 = true := by
  cases d1 <;> cases d2 <;> cases d3 <;>
    simp only [nameLE, if_true, if_false, reduceIte] <;>
    first
      | exact fun h1 h2 => chLexLE_trans _ _ _ h1 h2
      | intro h1 h2 <;> simp_all

theorem nameLE_total (d1 : Bool) (n1 : String) (d2 : Bool) (n2 : String) :
    nameLE d1 n1 d2 n2 = true ∨ nameLE d2 n2 d1 n1 = true := by
  cases d1 <;> cases d2 <;> simp only [nameLE, reduceIte] <;>
    first
      | exact chLexLE_total _ _
      | simp

instance : IsTrans RFile pyLeRP :=
  ⟨fun _ _ _ h1 h2 => nameLE_trans _ _ _ _ _ _ h1 h2⟩

instance : IsTotal RFile pyLeRP :=
  ⟨fun _ _ => nameLE_total _ _ _ _⟩

/-! ### Side-effect events and error taxonomy -/

/-- Side effects an embedded operation would perform, in order: local disk
operations, shell commands against a device, and sync-channel transfers. -/
inductive Ev where
  | validateEv (raw : String)
  | listdirEv (p : String)
  | statEv (p : String)
  | openReadEv (p : String)
  | openWriteEv (p : String)
  | mkdirsEv (p : String)
  | shellEv (serial cmd : String)
  | syncPullEv (serial remote localDest : String)
  | syncPushEv (serial localSrc remote : String)
deriving DecidableEq, Repr

/-- Errors surfaced by the embedded operations (ValueError / HTTPException /
OS errors in the source, the spec's error taxonomy). -/
inductive Err where
  | pathNotFound (p : String)
  | isADirectory (p : String)
  | deviceNotFound (serial : String)
  | missingSerial
  | sourceNotFound (p : String)
  | dirNotSupported
  | transferError
  | ioError
  | fileNotFoundOS
deriving DecidableEq, Repr

/-- Is the event a local-disk access? -/
def isDiskEv : Ev → Bool
  | .listdirEv _ => true
  | .statEv _ => true
  | .openReadEv _ => true
  | .openWriteEv _ => true
  | .mkdirsEv _ => true
  | .syncPullEv _ _ _ => true
  | _ => false

/-- Is the event a `validate_path` call? -/
def isValidateEv : Ev → Bool
  | .validateEv _ => true
  | _ => false

/-- Helper: once a validate event has been seen (`seen = true`), later disk
events are allowed. -/
def vbdAux : Bool → List Ev → Bool
  | _, [] => true
  | seen, e :: tr =>
    if isDiskEv e && !seen then false
    else vbdAux (seen || isValidateEv e) tr

/-- Every local-disk event in the trace is preceded by some `validate_path`
call. -/
def validatedBeforeDisk (tr : List Ev) : Bool := vbdAux false tr

/-! ### PathValidator and LocalFilesystemAdapter: FileService
(file_service.py).  The OS calls the service makes (`os.path.*`, `os.stat`,
`os.listdir`, `open`, `os.makedirs`) are modelled by an environment of pure
functions. -/

/-- Result of a successful `os.stat`. -/
structure StatInfo where
  st_size : Nat
  st_mtime : Int
deriving DecidableEq, Repr

/-- The local OS as seen by `FileService`: `home_dir`, `os.path.expanduser`,
`os.path.abspath`, `os.path.exists`, `os.path.isdir`, `os.listdir`,
`os.stat` (which may raise OSError/PermissionError), the result of reading
a file, and whether a write / a directory creation succeeds. -/
structure LEnv where
  home : String
  expanduser : String → String
  abspath : String → String
  pathExists : String → Bool
  isDir : String → Bool
  listdir : String → List String
  statOf : String → Except Unit StatInfo
  readData : String → Except Unit (List Nat)
  writeOk : String → Bool
  mkdirsOk : String → Bool

/-- `FileService.validate_path` (file_service.py lines 20–44): empty or root
input yields the home directory; otherwise expand the user shorthand, make
the path absolute, and require existence. -/
def validate_pathR (env : LEnv) (path : String) : Except Err String :=
  if path = "" ∨ path = "/" then .ok env.home
  else
    let abs_path := env.abspath (env.expanduser path)
    if env.pathExists abs_path then .ok abs_path
    else .error (.pathNotFound path)

/-- A local listing entry, the dict built in `FileService.list_files`. -/
structure LFile where
  name : String
  path : String
  is_directory : Bool
  size : Nat
  modified : Int
  type : String
deriving DecidableEq, Repr

/-- Sort comparison used on local entries. -/
def pyLeL (x y : LFile) : Bool := nameLE x.is_directory x.name y.is_directory y.name

/-- The local sort comparison as a proposition. -/
abbrev pyLeLP (x y : LFile) : Prop := pyLeL x y = true

instance : DecidableRel pyLeLP := fun x y => inferInstanceAs (Decidable (pyLeL x y = true))

instance : IsTrans LFile pyLeLP :=
  ⟨fun _ _ _ h1 h2 => nameLE_trans _ _ _ _ _ _ h1 h2⟩

instance : IsTotal LFile pyLeLP :=
  ⟨fun _ _ => nameLE_total _ _ _ _⟩

/-- The loop body of `FileService.list_files` over the `os.listdir` result:
skip names starting with the hidden marker, stat each remaining entry
(an OSError/PermissionError skips the entry), and build the entry dict. -/
def listItems (env : LEnv) (vp : String) : List String → List LFile × List Ev
  | [] => ([], [])
  | it :: its =>
    let rest := listItems env vp its
    if pyStartsWith it "." then rest
    else
      let item_path := osPathJoin vp it
      match env.statOf item_path with
      | .error _ => (rest.1, .statEv item_path :: rest.2)
      | .ok st =>
        let d := env.isDir item_path
        ({ name := it
           path := item_path
           is_directory := d
           size := if d then 0 else st.st_size
           modified := st.st_mtime
           type := if d then "directory" else "file" } :: rest.1,
         .statEv item_path :: rest.2)

/-- `FileService.list_files` (file_service.py lines 46–91): default to the
home directory, validate, enumerate children, and sort with directories
first and case-insensitive name order (Python's stable sort by that key). -/
def list_files (env : LEnv) (pathOpt : Option String) : Except Err (List LFile) × List Ev :=
  let p := pathOpt.getD env.home
  match validate_pathR env p with
  | .error e => (.error e, [.validateEv p])
  | .ok validated =>
    let its := listItems env validated (env.listdir validated)
    (.ok (List.insertionSort pyLeLP its.1),
     .validateEv p :: .listdirEv validated :: its.2)

/-- `FileService.get_file_info` (file_service.py lines 93–118). -/
def get_file_info (env : LEnv) (path : String) : Except Err LFile × List Ev :=
  match validate_pathR env path with
  | .error e => (.error e, [.validateEv path])
  | .ok vp =>
    match env.statOf vp with
    | .error _ => (.error .ioError, [.validateEv path, .statEv vp])
    | .ok st =>
      let d := env.isDir vp
      (.ok { name := osBasename vp
             path := vp
             is_directory := d
             size := if d then 0 else st.st_size
             modified := st.st_mtime
             type := if d then "directory" else "file" },
       [.validateEv path, .statEv vp])

/-- `FileService.read_file` (file_service.py lines 120–140): validate, refuse
directories, then read. -/
def read_file (env : LEnv) (path : String) : Except Err (List Nat) × List Ev :=
  match validate_pathR env path with
  | .error e => (.error e, [.validateEv path])
  | .ok vp =>
    if env.isDir vp then (.error (.isADirectory path), [.validateEv path])
    else
      match env.readData vp with
      | .ok bs => (.ok bs, [.validateEv path, .openReadEv vp])
      | .error _ => (.error .ioError, [.validateEv path, .openReadEv vp])

/-- `FileService.write_file` (file_service.py lines 142–164): note that the
raw `path` is used directly, with no `validate_path` call.
`os.makedirs(os.path.dirname(path), exist_ok=True)` raises
`FileNotFoundError` when the dirname is the empty string (Python semantics
of `os.makedirs` on an empty path), which the service re-raises. -/
def write_file (env : LEnv) (path : String) (content : List Nat) :
    Except Err Bool × List Ev :=
  let d := osDirname path
  if d = "" then (.error .fileNotFoundOS, [])
  else if env.mkdirsOk d then
    if env.writeOk path then (.ok true, [.mkdirsEv d, .openWriteEv path])
    else (.error .ioError, [.mkdirsEv d, .openWriteEv path])
  else (.error .ioError, [.mkdirsEv d])

/-- `FileService.get_parent_directory` (file_service.py lines 166–178). -/
def get_parent_directory (env : LEnv) (path : String) : Except Err String × List Ev :=
  match validate_pathR env path with
  | .error e => (.error e, [.validateEv path])
  | .ok vp =>
    let parent := osDirname vp
    (.ok (if parent ≠ vp then parent else vp), [.validateEv path])

/-! ### DeviceRegistry: ADBService.get_devices (adb_service.py lines 20–51) -/

/-- A device as handed over by `adb.device_list()`: its serial and its
property reader (`device.prop`), where a read may raise (`.error`), find the
property absent (`.ok none`), or return a value (`.ok (some v)`). -/
structure RawDevice where
  serial : String
  getProp : String → Except Unit (Option String)

/-- The device dict built in `ADBService.get_devices`. -/
structure DeviceInfo where
  serial : String
  model : String
  manufacturer : String
  android_version : String
  state : String
deriving DecidableEq, Repr

/-- The body of the per-device `try` in `get_devices`: read the three
properties (`device.prop.model or 'Unknown'` treats an absent or empty
model as falsy; `prop.get(key, 'Unknown')` substitutes the default when the
property is absent). A raise from any read aborts the dict construction. -/
def deviceInfoOf (d : RawDevice) : Except Unit DeviceInfo :=
  match d.getProp "ro.product.model",
        d.getProp "ro.product.manufacturer",
        d.getProp "ro.build.version.release" with
  | .ok m, .ok mf, .ok av =>
    .ok { serial := d.serial
          model := match m with
                   | some s => if s = "" then "Unknown" else s
                   | none => "Unknown"
          manufacturer := mf.getD "Unknown"
          android_version := av.getD "Unknown"
          state := "device" }
  | _, _, _ => .error ()

/-- The fallback dict appended when a device's property reads raise. -/
def fallbackInfo (serial : String) : DeviceInfo :=
  { serial := serial
    model := "Unknown"
    manufacturer := "Unknown"
    android_version := "Unknown"
    state := "device" }

/-- `ADBService.get_devices`: the outer `try` turns a failure of
`adb.device_list()` itself into an empty list; the inner per-device `try`
degrades a property failure to the `"Unknown"` fallback entry. -/
def get_devices (enum : Except Unit (List RawDevice)) : List DeviceInfo :=
  match enum with
  | .error _ => []
  | .ok ds =>
    ds.map fun d =>
      match deviceInfoOf d with
      | .ok info => info
      | .error _ => fallbackInfo d.serial

/-! ### RemoteSyncTransport and TransferOrchestrator:
ADBService.file_exists / pull_file / push_file (adb_service.py) and the
transfer endpoints (api/files.py). -/

/-- The adb transport as seen by `ADBService`: whether `adb.device(serial)`
resolves, what a shell command returns (or that it raises), whether a local
`os.makedirs` succeeds, and the outcomes of `device.sync.pull` /
`device.sync.push`. Also the `os.path.exists` / `os.path.isdir` checks the
transfer endpoints make on local paths. -/
structure AEnv where
  deviceFound : String → Bool
  shellOut : String → String → Except Unit String
  mkdirsOk : String → Bool
  pullResult : String → String → Except Unit Unit
  pushResult : String → String → Except Unit Unit
  localExists : String → Bool
  localIsDir : String → Bool

/-- The single-quote character, written by code point to keep string
literals quote-free. -/
def sq : String := (Char.ofNat 39).toString

/-- The existence-test shell command issued by `ADBService.file_exists`:
`test -e <path> && echo exists || echo not_exists`, with the path and the
two markers single-quoted. -/
def existsCmd (path : String) : String :=
  "test -e " ++ sq ++ path ++ sq ++ " && echo " ++ sq ++ "exists" ++ sq ++
    " || echo " ++ sq ++ "not_exists" ++ sq

/-- `ADBService.file_exists` (adb_service.py lines 175–195): false when the
device cannot be resolved or the shell raises; otherwise tests whether the
SUBSTRING `exists` occurs in the stripped output (`'exists' in
result.strip()`). -/
def file_exists (env : AEnv) (serial path : String) : Bool × List Ev :=
  if env.deviceFound serial then
    match env.shellOut serial (existsCmd path) with
    | .ok out => (pyContains (pyStrip out) "exists", [.shellEv serial (existsCmd path)])
    | .error _ => (false, [.shellEv serial (existsCmd path)])
  else (false, [])

/-- `ADBService.pull_file` (adb_service.py lines 122–148): resolve the
device, create the local destination directory (`os.makedirs` on the
dirname, which raises on an empty dirname), then sync-pull. -/
def pull_file (env : AEnv) (serial remote localp : String) : Except Err Bool × List Ev :=
  if env.deviceFound serial then
    let d := osDirname localp
    if d = "" then (.error .fileNotFoundOS, [])
    else if env.mkdirsOk d then
      match env.pullResult remote localp with
      | .ok _ => (.ok true, [.mkdirsEv d, .syncPullEv serial remote localp])
      | .error _ => (.error .transferError, [.mkdirsEv d, .syncPullEv serial remote localp])
    else (.error .ioError, [.mkdirsEv d])
  else (.error (.deviceNotFound serial), [])

/-- `ADBService.push_file` (adb_service.py lines 150–173). -/
def push_file (env : AEnv) (serial localp remote : String) : Except Err Bool × List Ev :=
  if env.deviceFound serial then
    match env.pushResult localp remote with
    | .ok _ => (.ok true, [.syncPushEv serial localp remote])
    | .error _ => (.error .transferError, [.syncPushEv serial localp remote])
  else (.error (.deviceNotFound serial), [])

/-- The `TransferRequest` pydantic model (api/files.py lines 16–20);
`device_serial` is optional with default `None`. -/
structure TReq where
  source_path : String
  destination_path : String
  device_serial : Option String
deriving DecidableEq, Repr

/-- A JSON field value in a response dict. -/
inductive JVal where
  | jb (b : Bool)
  | js (s : String)
deriving DecidableEq, Repr

/-- A JSON-shaped response: an ordered field list. -/
def lookupField : List (String × JVal) → String → Option JVal
  | [], _ => none
  | (k, v) :: r, key => if k = key then some v else lookupField r key

/-- The success body returned by both transfer endpoints: only a `success`
flag and a human-readable `message` embedding the destination path. -/
def successResp (dest : String) : List (String × JVal) :=
  [("success", .jb true),
   ("message", .js ("File transferred successfully to " ++ dest))]

/-- `transfer_mac_to_android` (api/files.py lines 82–114): require a serial
(`not request.device_serial` catches both `None` and the empty string),
require the local source to exist and not be a directory, then push.  Any
exception out of `push_file` becomes a generic 500 transfer error. -/
def transfer_mac_to_android (env : AEnv) (req : TReq) :
    Except Err (List (String × JVal)) × List Ev :=
  match req.device_serial with
  | none => (.error .missingSerial, [])
  | some s =>
    if s = "" then (.error .missingSerial, [])
    else if env.localExists req.source_path then
      if env.localIsDir req.source_path then (.error .dirNotSupported, [])
      else
        match push_file env s req.source_path req.destination_path with
        | (.ok _, tr) => (.ok (successResp req.destination_path), tr)
        | (.error _, tr) => (.error .transferError, tr)
    else (.error (.sourceNotFound req.source_path), [])

/-- `transfer_android_to_mac` (api/files.py lines 117–146): require a serial,
require `file_exists` on the device, then pull.  Any exception out of
`pull_file` becomes a generic 500 transfer error. -/
def transfer_android_to_mac (env : AEnv) (req : TReq) :
    Except Err (List (String × JVal)) × List Ev :=
  match req.device_serial with
  | none => (.error .missingSerial, [])
  | some s =>
    if s = "" then (.error .missingSerial, [])
    else
      let ex := file_exists env s req.source_path
      if ex.1 then
        match pull_file env s req.source_path req.destination_path with
        | (.ok _, tr) => (.ok (successResp req.destination_path), ex.2 ++ tr)
        | (.error _, tr) => (.error .transferError, ex.2 ++ tr)
      else (.error (.sourceNotFound req.source_path), ex.2)

/-! ### Helper lemmas -/

instance {ε α : Type} [DecidableEq ε] [DecidableEq α] : DecidableEq (Except ε α) :=
  fun x y =>
    match x, y with
    | .ok a, .ok b =>
      if h : a = b then isTrue (by rw [h]) else isFalse (by simp [h])
    | .error a, .error b =>
      if h : a = b then isTrue (by rw [h]) else isFalse (by simp [h])
    | .ok _, .error _ => isFalse (by simp)
    | .error _, .ok _ => isFalse (by simp)

/-- Did the modelled external call succeed? -/
def isOkE {α : Type} : Except Unit α → Bool
  | .ok _ => true
  | .error _ => false

/-- After a validate event has been seen, any remaining trace is accepted. -/
theorem vbdAux_of_seen : ∀ tr : List Ev, vbdAux true tr = true := by
  intro tr
  induction tr with
  | nil => rfl
  | cons e tr ih => simp [vbdAux, ih]

/-- A trace that starts with a validate event satisfies
`validatedBeforeDisk`. -/
theorem validatedBeforeDisk_validate_cons (p : String) (tr : List Ev) :
    validatedBeforeDisk (.validateEv p :: tr) = true := by
  simp [validatedBeforeDisk, vbdAux, isDiskEv, isValidateEv, vbdAux_of_seen]

/-- Entries collected by the listing loop never have hidden names. -/
theorem listItems_not_hidden (env : LEnv) (vp : String) :
    ∀ (its : List String) (f : LFile), f ∈ (listItems env vp its).1 →
      pyStartsWith f.name "." = false := by
  intro its
  induction its with
  | nil => intro f hf; simp [listItems] at hf
  | cons it its ih =>
    intro f hf
    simp only [listItems] at hf
    by_cases h : pyStartsWith it "." = true
    · rw [if_pos h] at hf
      exact ih f hf
    · rw [if_neg h] at hf
      cases hst : env.statOf (osPathJoin vp it) with
      | error e =>
        rw [hst] at hf
        exact ih f hf
      | ok st =>
        rw [hst] at hf
        rcases List.mem_cons.mp hf with he | hm
        · subst he
          exact Bool.eq_false_iff.mpr h
        · exact ih f hm

/-- With all stats succeeding, the listing loop returns exactly the
non-hidden children, in directory order. -/
theorem listItems_names (env : LEnv) (vp : String) :
    ∀ its : List String,
      (∀ it ∈ its, pyStartsWith it "." = false →
        isOkE (env.statOf (osPathJoin vp it)) = true) →
      ((listItems env vp its).1).map LFile.name
        = its.filter (fun it => !pyStartsWith it ".") := by
  intro its
  induction its with
  | nil => intro _; simp [listItems]
  | cons it its ih =>
    intro hstat
    have hstat' : ∀ x ∈ its, pyStartsWith x "." = false →
        isOkE (env.statOf (osPathJoin vp x)) = true :=
      fun x hx => hstat x (List.mem_cons_of_mem _ hx)
    simp only [listItems]
    by_cases h : pyStartsWith it "." = true
    · rw [if_pos h]
      simp [List.filter_cons, h, ih hstat']
    · rw [if_neg h]
      have hb : pyStartsWith it "." = false := Bool.eq_false_iff.mpr h
      have hok := hstat it (List.mem_cons_self _ _) hb
      cases hst : env.statOf (osPathJoin vp it) with
      | error e =>
        rw [hst] at hok
        simp [isOkE] at hok
      | ok st =>
        simp [List.filter_cons, hb, ih hstat']

/-- A parsed listing line never yields a `.` or `..` entry. -/
theorem parseLsLine_not_dot (path line : String) (f : RFile)
    (h : parseLsLine path line = some f) : f.name ≠ "." ∧ f.name ≠ ".." := by
  simp only [parseLsLine] at h
  split_ifs at h with h1 h2 h3 <;>
  · rw [Option.some_inj] at h
    subst h
    exact ⟨fun hc => h3 (Or.inl hc), fun hc => h3 (Or.inr hc)⟩

/-- The `serial` of each entry produced by `get_devices` is the raw
device's serial, whether or not its property reads failed. -/
theorem deviceInfoOf_serial (d : RawDevice) (info : DeviceInfo)
    (h : deviceInfoOf d = .ok info) : info.serial = d.serial := by
  unfold deviceInfoOf at h
  split at h
  · injection h with h'
    subst h'
    rfl
  · exact absurd h (by simp)

/-! ### Concrete test environments -/

/-- A local environment where every OS call succeeds. -/
def lenv2 : LEnv :=
  { home := "/Users/u", expanduser := id, abspath := id
    pathExists := fun _ => true, isDir := fun _ => false
    listdir := fun _ => [], statOf := fun _ => .ok ⟨0, 0⟩
    readData := fun _ => .ok [], writeOk := fun _ => true
    mkdirsOk := fun _ => true }

/-- A local environment where only `/Users/u/docs` exists. -/
def env6 : LEnv :=
  { home := "/Users/u", expanduser := id, abspath := id
    pathExists := fun q => q == "/Users/u/docs", isDir := fun _ => false
    listdir := fun _ => [], statOf := fun _ => .ok ⟨0, 0⟩
    readData := fun _ => .ok [], writeOk := fun _ => true
    mkdirsOk := fun _ => true }

/-- A transport environment whose existence-test shell command reports
`not_exists` (the path is absent on the device) and whose transfers
succeed. -/
def envC3 : AEnv :=
  { deviceFound := fun _ => true
    shellOut := fun _ _ => .ok "not_exists"
    mkdirsOk := fun _ => true
    pullResult := fun _ _ => .ok ()
    pushResult := fun _ _ => .ok ()
    localExists := fun _ => true
    localIsDir := fun _ => false }

/-- A to-local transfer request for a remote path that does not exist. -/
def reqC3 : TReq := ⟨"/sdcard/missing.txt", "/Users/u/dl/missing.txt", some "ABC123"⟩

/-- A transport environment where everything succeeds and the existence
test reports `exists`. -/
def envOk : AEnv :=
  { deviceFound := fun _ => true
    shellOut := fun _ _ => .ok "exists"
    mkdirsOk := fun _ => true
    pullResult := fun _ _ => .ok ()
    pushResult := fun _ _ => .ok ()
    localExists := fun _ => true
    localIsDir := fun _ => false }

/-- Like `envOk` but the local source path is a directory. -/
def envC7 : AEnv :=
  { deviceFound := fun _ => true
    shellOut := fun _ _ => .ok "exists"
    mkdirsOk := fun _ => true
    pullResult := fun _ _ => .ok ()
    pushResult := fun _ _ => .ok ()
    localExists := fun _ => true
    localIsDir := fun _ => true }

/-- A to-remote transfer request whose source is a directory. -/
def reqC7 : TReq := ⟨"/Users/u/folder", "/sdcard/folder", some "SER1"⟩

/-- A transfer request with an absent device serial. -/
def req8 : TReq := ⟨"/Users/u/a.txt", "/sdcard/a.txt", none⟩

/-- A well-formed transfer request. -/
def req9 : TReq := ⟨"/Users/u/a.txt", "/sdcard/Download/a.txt", some "SER9"⟩

/-- A to-local transfer request pulling into the user's directory. -/
def reqC2t : TReq := ⟨"/sdcard/DCIM/x.bin", "/Users/u/in/x.bin", some "SER2"⟩

/-! ### Claims -/

/-- C1 counterexample: parsing the spec's example line
`drwxr-xr-x 2 root root 4096 Jan 1 00:00 Pictures` does NOT yield the name
`Pictures`: the name is rebuilt from the 8th whitespace token onward, and
with the three-token date `Jan 1 00:00` that is `00:00 Pictures`. -/
theorem C1_counterexample :
    ((parseLsLine "/sdcard" "drwxr-xr-x 2 root root 4096 Jan 1 00:00 Pictures").map
        RFile.name = some "00:00 Pictures")
    ∧ ((parseLsLine "/sdcard" "drwxr-xr-x 2 root root 4096 Jan 1 00:00 Pictures").map
        RFile.name ≠ some "Pictures") := by decide

/-- C1 (amended): the parser takes the name from the 8th whitespace token
onward, so the spec's example lines parse with name `00:00 Pictures`; with
the device's two-token date format the example values hold as stated
(directory flag from the `d` prefix, size 0 for directories, 1234 for the
file); the `total` summary line and blank lines yield no entry, and no
returned entry is ever named `.` or `..`. -/
theorem C1_parser_examples :
    parseLsLine "/sdcard" "drwxr-xr-x 2 root root 4096 Jan 1 00:00 Pictures"
      = some ⟨"00:00 Pictures", "/sdcard/00:00 Pictures", true, 0, "drwxr-xr-x", "directory"⟩
    ∧ parseLsLine "/sdcard" "drwxrwx--x 2 root sdcard_rw 4096 2024-01-01 00:00 Pictures"
      = some ⟨"Pictures", "/sdcard/Pictures", true, 0, "drwxrwx--x", "directory"⟩
    ∧ parseLsLine "/sdcard" "-rw-r--r-- 1 root root 1234 2024-01-01 00:00 photo.jpg"
      = some ⟨"photo.jpg", "/sdcard/photo.jpg", false, 1234, "-rw-r--r--", "file"⟩
    ∧ parseLsLine "/sdcard" "total 48" = none
    ∧ parseLsLine "/sdcard" "" = none
    ∧ parseLsLine "/sdcard" "drwxrwx--x 2 root sdcard_rw 4096 2024-01-01 00:00 ." = none
    ∧ parseLsLine "/sdcard" "drwxrwx--x 2 root sdcard_rw 4096 2024-01-01 00:00 .." = none
    ∧ (∀ (path output : String) (f : RFile), f ∈ adbListFiles path output →
        f.name ≠ "." ∧ f.name ≠ "..") := by
  refine ⟨by decide, by decide, by decide, by decide, by decide, by decide, by decide, ?_⟩
  intro path output f hf
  rw [adbListFiles, List.mem_insertionSort] at hf
  obtain ⟨line, _, hline⟩ := List.mem_filterMap.mp hf
  exact parseLsLine_not_dot path line f hline

/-- The entry parsed from a two-token-date `Pictures` line. -/
def picEntry : RFile := ⟨"Pictures", "/sdcard/Pictures", true, 0, "drwxrwx--x", "directory"⟩

/-- C1 witness: the amended universal claim at a concrete listing. -/
theorem C1_witness : picEntry.name ≠ "." ∧ picEntry.name ≠ ".." :=
  C1_parser_examples.2.2.2.2.2.2.2 "/sdcard"
    "drwxrwx--x 2 root sdcard_rw 4096 2024-01-01 00:00 Pictures" picEntry (by decide)

/-- C2 counterexample: `FileService.write_file` performs directory creation
and the file write on its raw path argument with no `validate_path` call at
all — its event trace contains disk writes but no validate event. -/
theorem C2_counterexample :
    (write_file lenv2 "/Users/u/docs/report.txt" [1, 2]).2
      = [.mkdirsEv "/Users/u/docs", .openWriteEv "/Users/u/docs/report.txt"]
    ∧ validatedBeforeDisk (write_file lenv2 "/Users/u/docs/report.txt" [1, 2]).2 = false
    ∧ (write_file lenv2 "/Users/u/docs/report.txt" [1, 2]).1 = .ok true := by decide

/-- C2 (amended): `list_files`, `get_file_info`, `read_file` and
`get_parent_directory` validate their path before any disk access, but
`write_file` touches the disk with no validation, and the local destination
of a to-local transfer reaches `os.makedirs` and the sync pull without any
validation. -/
theorem C2_validation_coverage :
    (∀ (env : LEnv) (p : Option String), validatedBeforeDisk (list_files env p).2 = true)
    ∧ (∀ (env : LEnv) (p : String), validatedBeforeDisk (get_file_info env p).2 = true)
    ∧ (∀ (env : LEnv) (p : String), validatedBeforeDisk (read_file env p).2 = true)
    ∧ (∀ (env : LEnv) (p : String), validatedBeforeDisk (get_parent_directory env p).2 = true)
    ∧ validatedBeforeDisk (write_file lenv2 "/Users/u/docs/report.txt" [1, 2]).2 = false
    ∧ validatedBeforeDisk (transfer_android_to_mac envOk reqC2t).2 = false
    ∧ Ev.syncPullEv "SER2" "/sdcard/DCIM/x.bin" "/Users/u/in/x.bin"
        ∈ (transfer_android_to_mac envOk reqC2t).2 := by
  refine ⟨?_, ?_, ?_, ?_, by decide, by decide, by decide⟩
  · intro env p
    rw [list_files]
    cases hv : validate_pathR env (p.getD env.home) <;>
      simp [validatedBeforeDisk_validate_cons]
  · intro env p
    rw [get_file_info]
    cases hv : validate_pathR env p with
    | error e => simp [validatedBeforeDisk_validate_cons]
    | ok vp =>
      cases hst : env.statOf vp <;> simp [hst, validatedBeforeDisk_validate_cons]
  · intro env p
    rw [read_file]
    cases hv : validate_pathR env p with
    | error e => simp [validatedBeforeDisk_validate_cons]
    | ok vp =>
      by_cases hd : env.isDir vp = true
      · simp [hd, validatedBeforeDisk_validate_cons]
      · cases hr : env.readData vp <;>
          simp [hd, hr, validatedBeforeDisk_validate_cons]
  · intro env p
    rw [get_parent_directory]
    cases hv : validate_pathR env p <;> simp [validatedBeforeDisk_validate_cons]

/-- C3: the to-local precondition misreads the existence test.  The shell
command prints `not_exists` for an absent path, but `file_exists` checks
`'exists' in result`, and `exists` IS a substring of `not_exists`; so the
check returns true for an absent remote source and the transfer proceeds
to the pull instead of failing with `SourceNotFound`. -/
theorem C3_file_exists_substring_bug :
    pyContains "not_exists" "exists" = true
    ∧ (file_exists envC3 "ABC123" "/sdcard/missing.txt").1 = true
    ∧ (transfer_android_to_mac envC3 reqC3).1 = .ok (successResp "/Users/u/dl/missing.txt")
    ∧ Ev.syncPullEv "ABC123" "/sdcard/missing.txt" "/Users/u/dl/missing.txt"
        ∈ (transfer_android_to_mac envC3 reqC3).2 := by decide

/-- C6: `validate_path` maps empty and root input to the home directory;
any other path is user-expanded and made absolute, then must exist on disk
(`PathNotFound` otherwise) and is returned in that resolved form. -/
theorem C6_validate_path_spec (env : LEnv) (p : String) :
    validate_pathR env "" = .ok env.home
    ∧ validate_pathR env "/" = .ok env.home
    ∧ (p ≠ "" → p ≠ "/" → env.pathExists (env.abspath (env.expanduser p)) = false →
        validate_pathR env p = .error (.pathNotFound p))
    ∧ (p ≠ "" → p ≠ "/" → env.pathExists (env.abspath (env.expanduser p)) = true →
        validate_pathR env p = .ok (env.abspath (env.expanduser p))) := by
  refine ⟨rfl, rfl, ?_, ?_⟩ <;>
    intro h1 h2 h3 <;>
    simp [validate_pathR, h1, h2, h3]

/-- C6 witness: the validation contract at a concrete environment where
only `/Users/u/docs` exists. -/
theorem C6_witness :
    validate_pathR env6 "" = .ok "/Users/u"
    ∧ validate_pathR env6 "/" = .ok "/Users/u"
    ∧ validate_pathR env6 "/Users/u/missing" = .error (.pathNotFound "/Users/u/missing")
    ∧ validate_pathR env6 "/Users/u/docs" = .ok "/Users/u/docs" := by
  refine ⟨(C6_validate_path_spec env6 "x").1, (C6_validate_path_spec env6 "x").2.1, ?_, ?_⟩
  · exact (C6_validate_path_spec env6 "/Users/u/missing").2.2.1
      (by decide) (by decide) (by decide)
  · exact (C6_validate_path_spec env6 "/Users/u/docs").2.2.2
      (by decide) (by decide) (by decide)

/-- C7: a to-remote transfer whose source is an existing local directory
fails with the directory-not-supported error and an empty event trace: no
push, pull or any other transport call happens. -/
theorem C7_directory_source_rejected (env : AEnv) (req : TReq) (s : String)
    (hs : req.device_serial = some s) (hne : s ≠ "")
    (hex : env.localExists req.source_path = true)
    (hdir : env.localIsDir req.source_path = true) :
    transfer_mac_to_android env req = (.error .dirNotSupported, []) := by
  simp [transfer_mac_to_android, hs, hne, hex, hdir]

/-- C7 witness: the rejection at a concrete directory source. -/
theorem C7_witness :
    transfer_mac_to_android envC7 reqC7 = (.error .dirNotSupported, []) :=
  C7_directory_source_rejected envC7 reqC7 "SER1" rfl (by decide) rfl rfl

/-- C8: an absent (`None`) or empty device serial fails the transfer with
the missing-serial error in both directions, with an empty event trace:
no filesystem or device I/O happens first. -/
theorem C8_missing_serial_rejected (env : AEnv) (req : TReq)
    (h : req.device_serial = none ∨ req.device_serial = some "") :
    transfer_mac_to_android env req = (.error .missingSerial, [])
    ∧ transfer_android_to_mac env req = (.error .missingSerial, []) := by
  rcases h with h | h <;>
    exact ⟨by simp [transfer_mac_to_android, h],
           by simp [transfer_android_to_mac, h]⟩

/-- C8 witness: the rejection at a concrete request with no serial. -/
theorem C8_witness :
    transfer_mac_to_android envOk req8 = (.error .missingSerial, [])
    ∧ transfer_android_to_mac envOk req8 = (.error .missingSerial, []) :=
  C8_missing_serial_rejected envOk req8 (Or.inl rfl)

/-- C9 counterexample: a successful transfer's response has only the fields
`success` and `message`; there is no field holding the destination path. -/
theorem C9_counterexample :
    (transfer_mac_to_android envOk req9).1 = .ok (successResp "/sdcard/Download/a.txt")
    ∧ lookupField (successResp "/sdcard/Download/a.txt") "success" = some (.jb true)
    ∧ lookupField (successResp "/sdcard/Download/a.txt") "destination_path" = none
    ∧ lookupField (successResp "/sdcard/Download/a.txt") "destinationPath" = none
    ∧ lookupField (successResp "/sdcard/Download/a.txt") "path" = none := by decide

/-- C9 (amended): a successful transfer in either direction returns exactly
the fields `success = true` and `message`, where the destination path
appears only embedded in the message string
`File transferred successfully to <destination>`. -/
theorem C9_success_response_fields (env : AEnv) (req : TReq) (s : String)
    (hs : req.device_serial = some s) (hne : s ≠ "")
    (hex : env.localExists req.source_path = true)
    (hnd : env.localIsDir req.source_path = false)
    (hdev : env.deviceFound s = true)
    (hpush : env.pushResult req.source_path req.destination_path = .ok ())
    (hshell : env.shellOut s (existsCmd req.source_path) = .ok "exists")
    (hd : osDirname req.destination_path ≠ "")
    (hmk : env.mkdirsOk (osDirname req.destination_path) = true)
    (hpull : env.pullResult req.source_path req.destination_path = .ok ()) :
    (transfer_mac_to_android env req).1 = .ok (successResp req.destination_path)
    ∧ (transfer_android_to_mac env req).1 = .ok (successResp req.destination_path)
    ∧ successResp req.destination_path =
        [("success", .jb true),
         ("message", .js ("File transferred successfully to " ++ req.destination_path))] := by
  have hc : pyContains (pyStrip "exists") "exists" = true := by decide
  refine ⟨?_, ?_, rfl⟩
  · simp [transfer_mac_to_android, push_file, hs, hne, hex, hnd, hdev, hpush]
  · simp [transfer_android_to_mac, pull_file, file_exists, hs, hne, hdev, hshell, hc,
      hd, hmk, hpull]

/-- C9 witness: the amended response shape at a concrete successful
transfer. -/
theorem C9_witness :
    (transfer_mac_to_android envOk req9).1 = .ok (successResp "/sdcard/Download/a.txt")
    ∧ (transfer_android_to_mac envOk req9).1 = .ok (successResp "/sdcard/Download/a.txt")
    ∧ successResp "/sdcard/Download/a.txt" =
        [("success", .jb true),
         ("message", .js ("File transferred successfully to " ++ "/sdcard/Download/a.txt"))] :=
  C9_success_response_fields envOk req9 "SER9" rfl (by decide) rfl rfl rfl rfl rfl
    (by decide) rfl rfl

/-- C10: `write_file` fails on a bare filename.  It runs
`os.makedirs(os.path.dirname(path), exist_ok=True)`, and for a path with no
directory component the dirname is the empty string, on which `os.makedirs`
raises `FileNotFoundError` — so the write raises instead of creating
nothing and succeeding, for every environment and content. -/
theorem C10_write_file_bare_filename (env : LEnv) (content : List Nat) :
    write_file env "photo.jpg" content = (.error .fileNotFoundOS, []) := rfl

/-- C10 witness: the failing evaluation at a concrete environment. -/
theorem C10_witness :
    write_file lenv2 "photo.jpg" [7] = (.error .fileNotFoundOS, []) :=
  C10_write_file_bare_filename lenv2 [7]

/-- C4: a successful local listing is sorted with all directories before
all files and case-insensitively ascending names within each group, never
contains a hidden entry, and (when every child's stat succeeds) consists of
exactly the non-hidden direct children; every remote listing result obeys
the same ordering. -/
theorem C4_listing_order (env : LEnv) (p vp : String) (l : List LFile)
    (hv : validate_pathR env p = .ok vp)
    (hl : (list_files env (some p)).1 = .ok l)
    (hstat : ∀ it ∈ env.listdir vp, pyStartsWith it "." = false →
        isOkE (env.statOf (osPathJoin vp it)) = true) :
    List.Sorted pyLeLP l
    ∧ (∀ f ∈ l, pyStartsWith f.name "." = false)
    ∧ (l.map LFile.name).Perm ((env.listdir vp).filter (fun it => !pyStartsWith it "."))
    ∧ (∀ (path output : String), List.Sorted pyLeRP (adbListFiles path output)) := by
  rw [list_files] at hl
  simp only [Option.getD_some] at hl
  rw [hv] at hl
  simp only [Except.ok.injEq] at hl
  subst hl
  refine ⟨List.sorted_insertionSort pyLeLP _, ?_, ?_, ?_⟩
  · intro f hf
    rw [List.mem_insertionSort] at hf
    exact listItems_not_hidden env vp _ f hf
  · have h1 : ((List.insertionSort pyLeLP (listItems env vp (env.listdir vp)).1).map
        LFile.name).Perm (((listItems env vp (env.listdir vp)).1).map LFile.name) :=
      (List.perm_insertionSort pyLeLP _).map LFile.name
    have h2 := listItems_names env vp (env.listdir vp) hstat
    rw [h2] at h1
    exact h1
  · intro path output
    exact List.sorted_insertionSort pyLeRP _

/-- A local environment for the C4 witness: `/Users/u/docs` contains a
directory `notes`, files `b.txt` and `A.txt`, and a hidden entry. -/
def env4 : LEnv :=
  { home := "/Users/u", expanduser := id, abspath := id
    pathExists := fun q => q == "/Users/u/docs"
    isDir := fun q => q == "/Users/u/docs/notes"
    listdir := fun _ => ["b.txt", "notes", ".hidden", "A.txt"]
    statOf := fun _ => .ok ⟨5, 0⟩
    readData := fun _ => .ok []
    writeOk := fun _ => true
    mkdirsOk := fun _ => true }

/-- The listing `list_files` computes for `env4`. -/
def l4 : List LFile :=
  [⟨"notes", "/Users/u/docs/notes", true, 0, 0, "directory"⟩,
   ⟨"A.txt", "/Users/u/docs/A.txt", false, 5, 0, "file"⟩,
   ⟨"b.txt", "/Users/u/docs/b.txt", false, 5, 0, "file"⟩]

/-- C4 witness: ordering, hidden-entry exclusion and exactness at the
concrete directory, plus remote ordering on a concrete listing output. -/
theorem C4_witness :
    List.Sorted pyLeLP l4
    ∧ (l4.map LFile.name).Perm ["b.txt", "notes", "A.txt"]
    ∧ List.Sorted pyLeRP (adbListFiles "/sdcard"
        "-rw-r--r-- 1 root root 9 2024-01-01 00:00 b.jpg") := by
  have h := C4_listing_order env4 "/Users/u/docs" "/Users/u/docs" l4
    (by decide) (by decide) (by decide)
  have hfilter : (env4.listdir "/Users/u/docs").filter (fun it => !pyStartsWith it ".")
      = ["b.txt", "notes", "A.txt"] := by decide
  exact ⟨h.1, hfilter ▸ h.2.2.1,
    h.2.2.2 "/sdcard" "-rw-r--r-- 1 root root 9 2024-01-01 00:00 b.jpg"⟩

/-- C5: device enumeration never raises.  A failure of the underlying
enumeration as a whole yields the empty list; a per-device property
failure keeps the device in the result — one output entry per input
device, each carrying its device's serial — as the all-`Unknown`
placeholder entry. -/
theorem C5_device_enumeration (ds : List RawDevice) (d : RawDevice)
    (hmem : d ∈ ds) (hfail : deviceInfoOf d = .error ()) :
    get_devices (.error ()) = []
    ∧ (get_devices (.ok ds)).map DeviceInfo.serial = ds.map RawDevice.serial
    ∧ fallbackInfo d.serial ∈ get_devices (.ok ds) := by
  refine ⟨rfl, ?_, ?_⟩
  · rw [get_devices, List.map_map]
    refine List.map_congr_left ?_
    intro x _
    simp only [Function.comp_apply]
    cases hx : deviceInfoOf x with
    | ok info => exact deviceInfoOf_serial x info hx
    | error e => rfl
  · rw [get_devices]
    have : (match deviceInfoOf d with
            | .ok info => info
            | .error _ => fallbackInfo d.serial) = fallbackInfo d.serial := by
      rw [hfail]
    exact this ▸ List.mem_map_of_mem _ hmem

/-- A device whose property reads succeed. -/
def dGood : RawDevice :=
  ⟨"S1", fun k => .ok (some (if k = "ro.product.model" then "Pixel 7" else "13"))⟩

/-- A device whose property reads raise. -/
def dBad : RawDevice := ⟨"S2", fun _ => .error ()⟩

/-- C5 witness: a failing enumeration and a device with failing property
reads, at a concrete device list. -/
theorem C5_witness :
    get_devices (.error ()) = []
    ∧ (get_devices (.ok [dGood, dBad])).map DeviceInfo.serial = ["S1", "S2"]
    ∧ fallbackInfo "S2" ∈ get_devices (.ok [dGood, dBad]) := by
  have h := C5_device_enumeration [dGood, dBad] dBad
    (List.mem_cons_of_mem _ (List.mem_cons_self _ _)) rfl
  exact ⟨h.1, h.2.1, h.2.2⟩

end AFT
